import Mathlib

/-!
Verification of the Admissions Genie admission-assessment pipeline.

This file gives a shallow embedding of the core pipeline services
(`services/reimbursement_calc.py`, `services/scoring_engine.py`,
`services/pdpm_classifier.py`, `config/settings.py`) and proves properties
of the embedded definitions.  Python `float` arithmetic is embedded as exact
rational arithmetic over `ℚ`; Python `int` becomes `ℤ`; Python dictionaries
with optional keys become structures of `Option` fields resolved with `getD`
exactly where the source uses `dict.get(key, default)`; Python's
`ZeroDivisionError` and `raise ValueError` become an `Except` error result.
-/

namespace AdmissionsGenie

/-- Boolean special-service flags (`special_services` dict keys used by the
pipeline). A missing key in the Python dict reads as falsy, so plain `Bool`
fields model it. -/
structure SpecialServices where
  dialysis : Bool := false
  trach : Bool := false
  wound_vac : Bool := false
  iv_abx : Bool := false
  oxygen : Bool := false
  feeding_tube : Bool := false
  bariatric : Bool := false
  deriving DecidableEq

/-- PDPM classification dict as consumed by the calculators and the scoring
engine. Keys may be absent (`dict.get` returns `None`), hence `Option`. -/
structure PdpmGroups where
  pt_group : Option String := none
  ot_group : Option String := none
  slp_group : Option String := none
  nursing_group : Option String := none
  nta_score : Option ℤ := none
  deriving DecidableEq

/-- Day-tier table for MA/commercial per-diem contracts
(`contract_rates['day_tiers']`, keys `1-30`, `31-60`, `61-100`). -/
structure DayTiers where
  t1_30 : Option ℚ := none
  t31_60 : Option ℚ := none
  t61_100 : Option ℚ := none
  deriving DecidableEq

/-- NTA rate matrix for Family Care (`mco_rates['nta_matrix']`, keys
`0-5`, `6-11`, `12+`). -/
structure NtaMatrix where
  b0_5 : Option ℚ := none
  b6_11 : Option ℚ := none
  b12plus : Option ℚ := none
  deriving DecidableEq

/-- Rate data dict passed to the calculators (`rate_data`, `contract_rates`,
`medicaid_rates`, `mco_rates` are all the same untyped dict in the source;
every key the calculators ever read appears here as an optional field). -/
structure RateData where
  pt_component : Option ℚ := none
  ot_component : Option ℚ := none
  slp_component : Option ℚ := none
  nursing_component : Option ℚ := none
  nta_component : Option ℚ := none
  non_case_mix : Option ℚ := none
  contract_type : Option String := none
  day_tiers : Option DayTiers := none
  pdpm_multiplier : Option ℚ := none
  per_diem_rate : Option ℚ := none
  component_nursing : Option ℚ := none
  component_therapy : Option ℚ := none
  component_room : Option ℚ := none
  nursing_matrix : List (String × ℚ) := []
  nta_matrix : NtaMatrix := {}
  deriving DecidableEq

/-- Facility data dict (`facility_data`, keys `wage_index`,
`vbp_multiplier`). -/
structure FacilityData where
  wage_index : Option ℚ := none
  vbp_multiplier : Option ℚ := none
  deriving DecidableEq

/-- Errors the calculators can raise: Python `ZeroDivisionError`, the
`ValueError` for an unknown payer type (the spec's `UnsupportedPayerType`),
and the `ValueError` for an unknown MA contract type. -/
inductive CalcError where
  | unsupportedPayerType (payer : String)
  | zeroDivision
  | unknownContractType (contract : String)
  deriving DecidableEq

/-- Result dict of `calculate_medicare_ffs`. -/
structure MedicareBreakdown where
  pt_revenue : ℚ
  ot_revenue : ℚ
  slp_revenue : ℚ
  nursing_revenue : ℚ
  nta_revenue : ℚ
  non_case_mix_revenue : ℚ
  total_before_vbp : ℚ
  vbp_adjustment : ℚ
  total_revenue : ℚ
  per_diem_rate : ℚ
  deriving DecidableEq

/-- Result dict of `calculate_ma_commercial` (the `pdpm_mapped` branch adds
two extra keys, modelled as optional fields). -/
structure MaBreakdown where
  total_revenue : ℚ
  per_diem_rate : ℚ
  contract_type : String
  base_medicare_revenue : Option ℚ := none
  multiplier : Option ℚ := none
  deriving DecidableEq

/-- Result dict of `calculate_medicaid_wi` (the component branch adds three
extra keys, modelled as optional fields). -/
structure MedicaidBreakdown where
  total_revenue : ℚ
  per_diem_rate : ℚ
  rate_type : String
  nursing_revenue : Option ℚ := none
  therapy_revenue : Option ℚ := none
  room_revenue : Option ℚ := none
  deriving DecidableEq

/-- Result dict of `calculate_family_care_wi`. -/
structure FamilyCareBreakdown where
  nursing_revenue : ℚ
  nta_revenue : ℚ
  total_revenue : ℚ
  per_diem_rate : ℚ
  nursing_group : String
  nta_score : ℤ
  deriving DecidableEq

/-- Payer-specific revenue breakdown returned by `calculate_revenue`. -/
inductive RevenueBreakdown where
  | medicare (b : MedicareBreakdown)
  | maCommercial (b : MaBreakdown)
  | medicaid (b : MedicaidBreakdown)
  | familyCare (b : FamilyCareBreakdown)
  deriving DecidableEq

/-- Python `range(lo, hi)` as a list of integers. -/
def pyRange (lo hi : ℤ) : List ℤ :=
  (List.range (hi - lo).toNat).map (fun i => lo + (i : ℤ))

/-- Variable Per Diem schedule lookup `VPD_SCHEDULE.get(day, 0.85)`: the dict
has keys 1..20 and every other key falls to the default 0.85. -/
def VPD_SCHEDULE (day : ℤ) : ℚ :=
  if 1 ≤ day ∧ day ≤ 3 then 1.00
  else if 4 ≤ day ∧ day ≤ 6 then 0.98
  else if 7 ≤ day ∧ day ≤ 10 then 0.95
  else if 11 ≤ day ∧ day ≤ 14 then 0.92
  else if 15 ≤ day ∧ day ≤ 18 then 0.88
  else if 19 ≤ day ∧ day ≤ 20 then 0.85
  else 0.85

/-- Accrual loop `for day in range(1, los + 1): revenue += rate * vpd_factor`
for one component at a fixed per-day rate. -/
def vpd_accrual (rate : ℚ) (los : ℤ) : ℚ :=
  (pyRange 1 (los + 1)).foldl (fun acc day => acc + rate * VPD_SCHEDULE day) 0

/-- Medicare Fee-for-Service revenue (`calculate_medicare_ffs`).  PT and OT
accrue with the VPD factor every day; SLP accrues only when
`pdpm_groups.get('slp_group') != 'None'`; nursing, NTA and non-case-mix
accrue flat.  The wage index applies to the 71.3% labor portion of
PT+OT+SLP+nursing, the VBP multiplier to the grand total.  Python raises
`ZeroDivisionError` when computing `total_before_vbp` (vbp 0) or
`per_diem_rate` (los 0). -/
def calculate_medicare_ffs (pdpm_groups : PdpmGroups) (rate_data : RateData)
    (los : ℤ) (wage_index : ℚ) (vbp_multiplier : ℚ) :
    Except CalcError MedicareBreakdown :=
  let pt_rate := rate_data.pt_component.getD 64.89
  let ot_rate := rate_data.ot_component.getD 64.38
  let slp_rate := rate_data.slp_component.getD 26.43
  let nursing_rate := rate_data.nursing_component.getD 105.81
  let nta_rate := rate_data.nta_component.getD 86.72
  let non_case_mix := rate_data.non_case_mix.getD 98.13
  let pt_revenue := vpd_accrual pt_rate los
  let ot_revenue := vpd_accrual ot_rate los
  let slp_revenue :=
    if pdpm_groups.slp_group ≠ some "None" then vpd_accrual slp_rate los else 0
  let nursing_revenue := nursing_rate * (los : ℚ)
  let nta_revenue := nta_rate * (los : ℚ)
  let non_case_mix_revenue := non_case_mix * (los : ℚ)
  let labor_portion : ℚ := 0.713
  let therapy_total := pt_revenue + ot_revenue + slp_revenue + nursing_revenue
  let wage_adjusted_therapy :=
    therapy_total * labor_portion * wage_index + therapy_total * (1 - labor_portion)
  let total_revenue0 := wage_adjusted_therapy + nta_revenue + non_case_mix_revenue
  let total_revenue := total_revenue0 * vbp_multiplier
  if vbp_multiplier = 0 ∨ los = 0 then .error .zeroDivision
  else .ok
    { pt_revenue := pt_revenue * labor_portion * wage_index + pt_revenue * (1 - labor_portion)
      ot_revenue := ot_revenue * labor_portion * wage_index + ot_revenue * (1 - labor_portion)
      slp_revenue := slp_revenue * labor_portion * wage_index + slp_revenue * (1 - labor_portion)
      nursing_revenue := nursing_revenue * labor_portion * wage_index +
        nursing_revenue * (1 - labor_portion)
      nta_revenue := nta_revenue
      non_case_mix_revenue := non_case_mix_revenue
      total_before_vbp := total_revenue / vbp_multiplier
      vbp_adjustment := total_revenue - total_revenue / vbp_multiplier
      total_revenue := total_revenue
      per_diem_rate := total_revenue / (los : ℚ) }

/-- Medicare Advantage / commercial revenue (`calculate_ma_commercial`). -/
def calculate_ma_commercial (contract_rates : RateData) (los : ℤ)
    (pdpm_groups : PdpmGroups) : Except CalcError MaBreakdown :=
  let contract_type := contract_rates.contract_type.getD "per_diem"
  if contract_type = "per_diem" then
    let day_tiers := contract_rates.day_tiers.getD {}
    let total_revenue := (pyRange 1 (los + 1)).foldl
      (fun acc day =>
        acc + (if day ≤ 30 then day_tiers.t1_30.getD 450.00
               else if day ≤ 60 then day_tiers.t31_60.getD 400.00
               else day_tiers.t61_100.getD 375.00)) 0
    if los = 0 then .error .zeroDivision
    else .ok { total_revenue := total_revenue
               per_diem_rate := total_revenue / (los : ℚ)
               contract_type := "per_diem" }
  else if contract_type = "pdpm_mapped" then
    let multiplier := contract_rates.pdpm_multiplier.getD 0.95
    match calculate_medicare_ffs pdpm_groups contract_rates los 1.0 1.0 with
    | .error e => .error e
    | .ok medicare_revenue =>
      let total_revenue := medicare_revenue.total_revenue * multiplier
      .ok { total_revenue := total_revenue
            per_diem_rate := total_revenue / (los : ℚ)
            contract_type := "pdpm_mapped"
            base_medicare_revenue := some medicare_revenue.total_revenue
            multiplier := some multiplier }
  else .error (.unknownContractType contract_type)

/-- Wisconsin Medicaid revenue (`calculate_medicaid_wi`). -/
def calculate_medicaid_wi (medicaid_rates : RateData) (los : ℤ) :
    Except CalcError MedicaidBreakdown :=
  match medicaid_rates.per_diem_rate with
  | some per_diem =>
    .ok { total_revenue := per_diem * (los : ℚ)
          per_diem_rate := per_diem
          rate_type := "per_diem" }
  | none =>
    let nursing_rate := medicaid_rates.component_nursing.getD 185.00
    let therapy_rate := medicaid_rates.component_therapy.getD 95.00
    let room_rate := medicaid_rates.component_room.getD 45.00
    let total_revenue := (nursing_rate + therapy_rate + room_rate) * (los : ℚ)
    if los = 0 then .error .zeroDivision
    else .ok { total_revenue := total_revenue
               per_diem_rate := total_revenue / (los : ℚ)
               rate_type := "component"
               nursing_revenue := some (nursing_rate * (los : ℚ))
               therapy_revenue := some (therapy_rate * (los : ℚ))
               room_revenue := some (room_rate * (los : ℚ)) }

/-- Wisconsin Family Care MCO revenue (`calculate_family_care_wi`). -/
def calculate_family_care_wi (mco_rates : RateData) (pdpm_groups : PdpmGroups)
    (los : ℤ) : Except CalcError FamilyCareBreakdown :=
  let nursing_group := pdpm_groups.nursing_group.getD "LBS2"
  let nta_score := pdpm_groups.nta_score.getD 0
  let nursing_rate := (mco_rates.nursing_matrix.lookup nursing_group).getD 275.00
  let nta_rate :=
    if nta_score ≥ 12 then mco_rates.nta_matrix.b12plus.getD 100.00
    else if nta_score ≥ 6 then mco_rates.nta_matrix.b6_11.getD 85.00
    else mco_rates.nta_matrix.b0_5.getD 70.00
  let total_revenue := (nursing_rate + nta_rate) * (los : ℚ)
  if los = 0 then .error .zeroDivision
  else .ok { nursing_revenue := nursing_rate * (los : ℚ)
             nta_revenue := nta_rate * (los : ℚ)
             total_revenue := total_revenue
             per_diem_rate := total_revenue / (los : ℚ)
             nursing_group := nursing_group
             nta_score := nta_score }

/-- Unified dispatcher `calculate_revenue`: routes to the payer-specific
calculator, or raises `ValueError(f"Unknown payer type: ...")` (the spec's
`UnsupportedPayerType`) for any other payer string.  There is no validation
of `los` anywhere on this path. -/
def calculate_revenue (payer_type : String) (rate_data : RateData)
    (pdpm_groups : PdpmGroups) (los : ℤ) (facility_data : Option FacilityData) :
    Except CalcError RevenueBreakdown :=
  let fd := facility_data.getD {}
  if payer_type = "medicare_ffs" then
    (calculate_medicare_ffs pdpm_groups rate_data los
      (fd.wage_index.getD 1.0) (fd.vbp_multiplier.getD 1.0)).map .medicare
  else if payer_type = "ma_commercial" then
    (calculate_ma_commercial rate_data los pdpm_groups).map .maCommercial
  else if payer_type = "medicaid_wi" then
    (calculate_medicaid_wi rate_data los).map .medicaid
  else if payer_type = "family_care_wi" then
    (calculate_family_care_wi rate_data pdpm_groups los).map .familyCare
  else .error (.unsupportedPayerType payer_type)

/-- Boolean test that a dispatcher result is a returned breakdown. -/
def revenueIsOk : Except CalcError RevenueBreakdown → Bool
  | .ok _ => true
  | .error _ => false

/-- Business weights (`Config.DEFAULT_BUSINESS_WEIGHTS` keys; a custom dict
must carry all five keys or the engine raises `KeyError`, so the structure
is total). -/
structure BusinessWeights where
  margin : ℚ
  census : ℚ
  denial_risk : ℚ
  complexity : ℚ
  readmit_risk : ℚ
  deriving DecidableEq

/-- Default business weights from `config/settings.py`. -/
def DEFAULT_BUSINESS_WEIGHTS : BusinessWeights :=
  { margin := 0.6, census := 0.2, denial_risk := 0.3
    complexity := 0.2, readmit_risk := 0.1 }

/-- Recommendation thresholds (`Config.SCORE_THRESHOLDS`). -/
structure ScoreThresholds where
  accept : ℚ
  defer : ℚ
  deriving DecidableEq

/-- Default thresholds from `config/settings.py` (accept 70, defer 40). -/
def SCORE_THRESHOLDS : ScoreThresholds := { accept := 70, defer := 40 }

/-- Result dict of `calculate_base_margin`. -/
structure BaseMargin where
  total_margin : ℚ
  margin_percentage : ℚ
  per_diem_margin : ℚ
  projected_revenue : ℚ
  projected_cost : ℚ
  los : ℤ
  deriving DecidableEq

/-- Base financial margin metrics (`calculate_base_margin`): both guarded
divisions fall back to 0 exactly as the source's conditional expressions do. -/
def calculate_base_margin (projected_revenue projected_cost : ℚ) (los : ℤ) :
    BaseMargin :=
  let total_margin := projected_revenue - projected_cost
  let margin_percentage :=
    if projected_revenue > 0 then total_margin / projected_revenue * 100 else 0
  let per_diem_margin := if los > 0 then total_margin / (los : ℚ) else 0
  { total_margin := total_margin
    margin_percentage := margin_percentage
    per_diem_margin := per_diem_margin
    projected_revenue := projected_revenue
    projected_cost := projected_cost
    los := los }

/-- Margin normalization to a 0-100 base score (`normalize_margin_score`). -/
def normalize_margin_score (per_diem_margin : ℚ) : ℚ :=
  let normalized :=
    if per_diem_margin ≥ 0 then
      50 + (per_diem_margin / (per_diem_margin + 200)) * 50
    else
      max 0 (50 + (per_diem_margin / 100) * 50)
  min 100 (max 0 normalized)

/-- Census priority factor (`calculate_census_factor`). -/
def calculate_census_factor (current_census_pct target_census_pct : ℚ) : ℚ :=
  min 10 (max (-10) (target_census_pct - current_census_pct))

/-- Care-complexity penalty (`calculate_complexity_penalty`), capped at 20. -/
def calculate_complexity_penalty (pdpm_groups : PdpmGroups)
    (special_services : SpecialServices) : ℚ :=
  let penalty : ℚ := 0
  let penalty := if pdpm_groups.nursing_group = some "ES1" ∨
      pdpm_groups.nursing_group = some "ES2" then penalty + 5 else penalty
  let penalty := if special_services.dialysis then penalty + 8 else penalty
  let penalty := if special_services.trach then penalty + 6 else penalty
  let penalty := if special_services.wound_vac then penalty + 4 else penalty
  let penalty := if special_services.iv_abx then penalty + 3 else penalty
  min 20 penalty

/-- Fixed high-risk phrase list scanned against clinical notes. -/
def high_risk_terms : List String :=
  ["falls risk", "multiple readmissions", "poor compliance",
   "unstable", "acute exacerbation"]

/-- Lowercase every character of a string (Python `str.lower`), expressed
on the underlying character list. -/
def strLower (s : String) : String := ⟨s.data.map Char.toLower⟩

/-- Contiguous-sublist test on character lists: `listInfix pat hay` holds
exactly when `pat` occurs contiguously in `hay` (Python `pat in hay`). -/
def listInfix (pat : List Char) : List Char → Bool
  | [] => pat.isEmpty
  | c :: rest => pat.isPrefixOf (c :: rest) || listInfix pat rest

/-- Substring test `term in notes` on strings. -/
def termInNotes (term notes : String) : Bool :=
  listInfix term.toList notes.toList

/-- Readmission-risk penalty (`calculate_readmit_risk_penalty`): +2 per
high-risk phrase found in the lowercased notes, +5 for prior readmission
history, capped at 10. -/
def calculate_readmit_risk_penalty (clinical_notes : String)
    (has_history : Bool) : ℚ :=
  let clinical_notes_lower := strLower clinical_notes
  let penalty := high_risk_terms.foldl
    (fun p term => if termInNotes term clinical_notes_lower then p + 2 else p)
    (0 : ℚ)
  let penalty := if has_history then penalty + 5 else penalty
  min 10 penalty

/-- Adjustment entry of the explanation dict (description strings omitted). -/
structure AdjustmentDetail where
  raw_value : ℚ
  weighted_value : ℚ
  weight : ℚ
  deriving DecidableEq

/-- Explanation dict returned by `calculate_margin_score`. -/
structure ScoreExplanation where
  base_margin : BaseMargin
  base_score : ℚ
  census_adj : AdjustmentDetail
  denial_adj : AdjustmentDetail
  complexity_adj : AdjustmentDetail
  readmit_adj : AdjustmentDetail
  final_score : ℚ
  deriving DecidableEq

/-- Comprehensive margin score (`calculate_margin_score`).  The engine's
`self.weights` dict is passed explicitly.  Note the source calls
`calculate_readmit_risk_penalty(clinical_notes)` with `has_history` left at
its default `False` on this path. -/
def calculate_margin_score (weights : BusinessWeights)
    (projected_revenue projected_cost : ℚ) (los : ℤ)
    (pdpm_groups : PdpmGroups) (special_services : SpecialServices)
    (denial_risk : ℚ) (current_census_pct target_census_pct : ℚ)
    (clinical_notes : String) : ScoreExplanation :=
  let base_margin := calculate_base_margin projected_revenue projected_cost los
  let per_diem_margin := base_margin.per_diem_margin
  let base_score := normalize_margin_score per_diem_margin
  let census_factor := calculate_census_factor current_census_pct target_census_pct
  let complexity_penalty := calculate_complexity_penalty pdpm_groups special_services
  let readmit_penalty := calculate_readmit_risk_penalty clinical_notes false
  let denial_penalty := denial_risk * 100 * 0.15
  let weighted_census := census_factor * weights.census
  let weighted_denial := denial_penalty * weights.denial_risk
  let weighted_complexity := complexity_penalty * weights.complexity
  let weighted_readmit := readmit_penalty * weights.readmit_risk
  let final_score := base_score + weighted_census - weighted_denial -
    weighted_complexity - weighted_readmit
  let final_score := min 100 (max 0 final_score)
  { base_margin := base_margin
    base_score := base_score
    census_adj := { raw_value := census_factor, weighted_value := weighted_census
                    weight := weights.census }
    denial_adj := { raw_value := denial_penalty, weighted_value := -weighted_denial
                    weight := weights.denial_risk }
    complexity_adj := { raw_value := complexity_penalty
                        weighted_value := -weighted_complexity
                        weight := weights.complexity }
    readmit_adj := { raw_value := readmit_penalty
                     weighted_value := - weighted_readmit
                     weight := weights.readmit_risk }
    final_score := final_score }

/-- Recommendation from a score (`get_recommendation`). -/
def get_recommendation (thresholds : ScoreThresholds) (score : ℚ) : String :=
  if score ≥ thresholds.accept then "Accept"
  else if score ≥ thresholds.defer then "Defer"
  else "Decline"

/-- Final-score formula of `calculate_margin_score` as a function of the
per-diem margin and the already-computed adjustment factors (the code path
after step 2: normalize, apply weights, clamp). -/
def final_score_of_margin (weights : BusinessWeights) (per_diem_margin : ℚ)
    (census_factor denial_penalty complexity_penalty readmit_penalty : ℚ) : ℚ :=
  min 100 (max 0 (normalize_margin_score per_diem_margin +
    census_factor * weights.census - denial_penalty * weights.denial_risk -
    complexity_penalty * weights.complexity -
    readmit_penalty * weights.readmit_risk))

/-- NTA point values per comorbidity condition (`PDPMClassifier.NTA_SCORES`). -/
def NTA_SCORES : List (String × ℤ) :=
  [("pneumonia", 5), ("septicemia", 6), ("diabetes", 3), ("copd", 4),
   ("uti", 4), ("chf", 5), ("dialysis", 8), ("hiv", 6),
   ("multiple_sclerosis", 6), ("parkinsons", 5), ("hemiplegia", 6),
   ("aphasia", 5), ("malnutrition", 4), ("depression", 3), ("bipolar", 4),
   ("schizophrenia", 4)]

/-- ICD-10-prefix to NTA condition mapping (`comorbidity_mapping` local of
`calculate_nta_score`). -/
def comorbidity_mapping : List (String × String) :=
  [("J15", "pneumonia"), ("J18", "pneumonia"),
   ("A40", "septicemia"), ("A41", "septicemia"),
   ("E11", "diabetes"), ("E10", "diabetes"),
   ("J44", "copd"),
   ("N39.0", "uti"),
   ("I50", "chf"),
   ("B20", "hiv"),
   ("G35", "multiple_sclerosis"),
   ("G20", "parkinsons"),
   ("G81", "hemiplegia"),
   ("R47.01", "aphasia"),
   ("E46", "malnutrition"),
   ("F32", "depression"),
   ("F31", "bipolar"),
   ("F20", "schizophrenia")]

/-- Inner loop of `calculate_nta_score`: for one comorbidity code, add
`NTA_SCORES.get(condition, 0)` for every matching prefix of
`comorbidity_mapping` to the running score. -/
def nta_code_points (s : ℤ) (code : String) : ℤ :=
  comorbidity_mapping.foldl
    (fun s2 pair =>
      if code.startsWith pair.1 then
        s2 + ((NTA_SCORES.lookup pair.2).getD 0)
      else s2)
    s

/-- NTA score (`PDPMClassifier.calculate_nta_score`): sum the point value of
every (code, prefix) match, add 8 for dialysis when a special-services dict
is present (`if special_services:` is falsy for `None`), cap at 12. -/
def calculate_nta_score (comorbidities : List String)
    (special_services : Option SpecialServices) : ℤ :=
  let score := comorbidities.foldl nta_code_points (0 : ℤ)
  let score :=
    match special_services with
    | some ss => if ss.dialysis then score + 8 else score
    | none => score
  min score 12

deriving instance DecidableEq for Except

/-- PDPM groups for the spec's hip-replacement Medicare-FFS scenario
(`slp_group` is `'None'`, as in the source module's own example usage). -/
def scenarioPdpmGroups : PdpmGroups :=
  { pt_group := some "TA", ot_group := some "TA", slp_group := some "None"
    nursing_group := some "HBS1", nta_score := some 8 }

/-- Medicare-FFS result of the spec scenario: LOS 22, wage index 1.0234,
VBP multiplier 0.98, documented default component rates. -/
def scenario_medicare_result : Except CalcError MedicareBreakdown :=
  calculate_medicare_ffs scenarioPdpmGroups {} 22 1.0234 0.98

/-- Total revenue of the scenario result (0 on error, which does not occur). -/
def scenario_total_revenue : ℚ :=
  match scenario_medicare_result with
  | .ok b => b.total_revenue
  | .error _ => 0

/-- Final score the scoring engine produces for the scenario revenue with the
spec's projected cost of $132,600 (default weights, default census, no denial
risk, no special services, empty notes). -/
def scenario_final_score : ℚ :=
  (calculate_margin_score DEFAULT_BUSINESS_WEIGHTS scenario_total_revenue
    132600 22 scenarioPdpmGroups {} 0 85 90 "").final_score

/-- Helper: a fold whose step never decreases the accumulator is bounded
below by its initial value. -/
theorem foldl_mono_step {α : Type} (f : ℤ → α → ℤ) (hf : ∀ s a, s ≤ f s a) :
    ∀ (l : List α) (s : ℤ), s ≤ l.foldl f s := by
  intro l
  induction l with
  | nil => intro s; exact le_refl s
  | cons a t ih => intro s; exact le_trans (hf s a) (ih (f s a))

/-- Helper: every value stored in `NTA_SCORES` is non-negative, so a lookup
with default 0 is non-negative. -/
theorem nta_lookup_nonneg (c : String) : 0 ≤ (NTA_SCORES.lookup c).getD 0 := by
  simp only [NTA_SCORES, List.lookup]
  repeat' split
  all_goals norm_num

/-- Helper: the inner NTA loop never decreases the running score. -/
theorem nta_code_points_ge (s : ℤ) (code : String) : s ≤ nta_code_points s code := by
  unfold nta_code_points
  apply foldl_mono_step
  intro s2 pair
  split
  · exact le_add_of_nonneg_right (nta_lookup_nonneg pair.2)
  · exact le_refl s2

/-- Helper: the +2-per-match loop of the readmission penalty counts matches. -/
theorem foldl_two_count (P : String → Bool) :
    ∀ (l : List String) (s : ℚ),
      l.foldl (fun p term => if P term then p + 2 else p) s =
        s + 2 * ((l.filter P).length : ℚ) := by
  intro l
  induction l with
  | nil => intro s; simp
  | cons a t ih =>
    intro s
    by_cases h : P a <;>
      simp only [List.foldl_cons, List.filter_cons, h, if_true, if_false,
        ite_true, ite_false, ih, List.length_cons] <;>
      push_cast <;> ring

/-- Helper: the margin-normalization curve is monotone non-decreasing. -/
theorem normalize_margin_score_mono {m1 m2 : ℚ} (h : m1 ≤ m2) :
    normalize_margin_score m1 ≤ normalize_margin_score m2 := by
  simp only [normalize_margin_score]
  apply min_le_min le_rfl
  apply max_le_max le_rfl
  by_cases h1 : m1 ≥ 0
  · have h2 : m2 ≥ 0 := le_trans h1 h
    rw [if_pos h1, if_pos h2]
    have p1 : (0 : ℚ) < m1 + 200 := by linarith
    have p2 : (0 : ℚ) < m2 + 200 := by linarith
    have hdiv : m1 / (m1 + 200) ≤ m2 / (m2 + 200) := by
      rw [div_le_div_iff₀ p1 p2]; nlinarith
    linarith
  · rw [if_neg h1]
    push_neg at h1
    by_cases h2 : m2 ≥ 0
    · rw [if_pos h2]
      have hle : max 0 (50 + m1 / 100 * 50) ≤ 50 := by
        apply max_le (by norm_num)
        have hneg : m1 / 100 < 0 := div_neg_of_neg_of_pos h1 (by norm_num)
        nlinarith
      have hdivnn : (0 : ℚ) ≤ m2 / (m2 + 200) := div_nonneg h2 (by linarith)
      nlinarith
    · rw [if_neg h2]
      apply max_le_max le_rfl
      have h100 : m1 / 100 ≤ m2 / 100 :=
        (div_le_div_iff_of_pos_right (by norm_num)).mpr h
      linarith

/-- Helper: the engine's final score factors through `final_score_of_margin`
applied to the computed per-diem margin and adjustment factors. -/
theorem calculate_margin_score_final_eq (weights : BusinessWeights)
    (projected_revenue projected_cost : ℚ) (los : ℤ)
    (pdpm_groups : PdpmGroups) (special_services : SpecialServices)
    (denial_risk : ℚ) (current_census_pct target_census_pct : ℚ)
    (clinical_notes : String) :
    (calculate_margin_score weights projected_revenue projected_cost los
      pdpm_groups special_services denial_risk current_census_pct
      target_census_pct clinical_notes).final_score =
    final_score_of_margin weights
      (calculate_base_margin projected_revenue projected_cost los).per_diem_margin
      (calculate_census_factor current_census_pct target_census_pct)
      (denial_risk * 100 * 0.15)
      (calculate_complexity_penalty pdpm_groups special_services)
      (calculate_readmit_risk_penalty clinical_notes false) := by
  simp only [calculate_margin_score, final_score_of_margin]

/-- C3: for every payer_type string outside the fixed enumeration
{medicare_ffs, ma_commercial, medicaid_wi, family_care_wi},
`calculate_revenue` fails with the `UnsupportedPayerType` error (the
source's `ValueError("Unknown payer type: ...")`) and never returns a
default revenue calculation. -/
theorem imp_C3_unknown_payer_rejected (payer_type : String)
    (rate_data : RateData) (pdpm_groups : PdpmGroups) (los : ℤ)
    (facility_data : Option FacilityData)
    (h : payer_type ∉
      ["medicare_ffs", "ma_commercial", "medicaid_wi", "family_care_wi"]) :
    calculate_revenue payer_type rate_data pdpm_groups los facility_data =
      .error (.unsupportedPayerType payer_type) := by
  simp only [List.mem_cons, List.not_mem_nil, or_false, not_or] at h
  obtain ⟨h1, h2, h3, h4⟩ := h
  unfold calculate_revenue
  simp [h1, h2, h3, h4]

/-- Witness for C3 at the concrete unknown payer string "tricare". -/
theorem imp_C3_witness :
    "tricare" ∉
      ["medicare_ffs", "ma_commercial", "medicaid_wi", "family_care_wi"] ∧
    calculate_revenue "tricare" {} {} 10 none =
      .error (.unsupportedPayerType "tricare") :=
  ⟨by decide, imp_C3_unknown_payer_rejected "tricare" {} {} 10 none (by decide)⟩

set_option maxHeartbeats 2000000 in
/-- C7: the Medicare-FFS Variable Per Diem factor is 1.00 on days 1-3, 0.98
on days 4-6, 0.95 on days 7-10, 0.92 on days 11-14, 0.88 on days 15-18,
0.85 on days 19-20 and on every day beyond 20, and the factor sequence is
non-increasing in the day index for all days ≥ 1. -/
theorem imp_C7_vpd_schedule :
    (∀ day : ℤ, 1 ≤ day → day ≤ 3 → VPD_SCHEDULE day = 1.00) ∧
    (∀ day : ℤ, 4 ≤ day → day ≤ 6 → VPD_SCHEDULE day = 0.98) ∧
    (∀ day : ℤ, 7 ≤ day → day ≤ 10 → VPD_SCHEDULE day = 0.95) ∧
    (∀ day : ℤ, 11 ≤ day → day ≤ 14 → VPD_SCHEDULE day = 0.92) ∧
    (∀ day : ℤ, 15 ≤ day → day ≤ 18 → VPD_SCHEDULE day = 0.88) ∧
    (∀ day : ℤ, 19 ≤ day → day ≤ 20 → VPD_SCHEDULE day = 0.85) ∧
    (∀ day : ℤ, 20 < day → VPD_SCHEDULE day = 0.85) ∧
    (∀ d e : ℤ, 1 ≤ d → d ≤ e → VPD_SCHEDULE e ≤ VPD_SCHEDULE d) := by
  refine ⟨?_, ?_, ?_, ?_, ?_, ?_, ?_, ?_⟩
  · intro day ha hb
    unfold VPD_SCHEDULE; split_ifs <;> first | rfl | (exfalso; omega)
  · intro day ha hb
    unfold VPD_SCHEDULE; split_ifs <;> first | rfl | (exfalso; omega)
  · intro day ha hb
    unfold VPD_SCHEDULE; split_ifs <;> first | rfl | (exfalso; omega)
  · intro day ha hb
    unfold VPD_SCHEDULE; split_ifs <;> first | rfl | (exfalso; omega)
  · intro day ha hb
    unfold VPD_SCHEDULE; split_ifs <;> first | rfl | (exfalso; omega)
  · intro day ha hb
    unfold VPD_SCHEDULE; split_ifs <;> first | rfl | (exfalso; omega)
  · intro day ha
    unfold VPD_SCHEDULE; split_ifs <;> first | rfl | (exfalso; omega)
  · intro d e hd hde
    unfold VPD_SCHEDULE
    split_ifs <;> first | (exfalso; omega) | norm_num

/-- Witness for C7 at concrete days of every schedule segment. -/
theorem imp_C7_witness :
    VPD_SCHEDULE 2 = 1.00 ∧ VPD_SCHEDULE 5 = 0.98 ∧ VPD_SCHEDULE 8 = 0.95 ∧
    VPD_SCHEDULE 12 = 0.92 ∧ VPD_SCHEDULE 16 = 0.88 ∧
    VPD_SCHEDULE 19 = 0.85 ∧ VPD_SCHEDULE 27 = 0.85 ∧
    VPD_SCHEDULE 9 ≤ VPD_SCHEDULE 4 :=
  ⟨imp_C7_vpd_schedule.1 2 (by norm_num) (by norm_num),
   imp_C7_vpd_schedule.2.1 5 (by norm_num) (by norm_num),
   imp_C7_vpd_schedule.2.2.1 8 (by norm_num) (by norm_num),
   imp_C7_vpd_schedule.2.2.2.1 12 (by norm_num) (by norm_num),
   imp_C7_vpd_schedule.2.2.2.2.1 16 (by norm_num) (by norm_num),
   imp_C7_vpd_schedule.2.2.2.2.2.1 19 (by norm_num) (by norm_num),
   imp_C7_vpd_schedule.2.2.2.2.2.2.1 27 (by norm_num),
   imp_C7_vpd_schedule.2.2.2.2.2.2.2 4 9 (by norm_num) (by norm_num)⟩

/-- C8: for every comorbidity list (any length, duplicates allowed) and
every special-services argument, `calculate_nta_score` returns an integer
in [0, 12]. -/
theorem imp_C8_nta_score_range (comorbidities : List String)
    (special_services : Option SpecialServices) :
    0 ≤ calculate_nta_score comorbidities special_services ∧
    calculate_nta_score comorbidities special_services ≤ 12 := by
  unfold calculate_nta_score
  have h0 : (0 : ℤ) ≤ comorbidities.foldl nta_code_points 0 :=
    foldl_mono_step nta_code_points nta_code_points_ge comorbidities 0
  constructor
  · refine le_min ?_ (by norm_num)
    cases special_services with
    | none => exact h0
    | some ss =>
      dsimp only
      split
      · linarith
      · exact h0
  · exact min_le_right _ _

/-- C9: the readmission-risk penalty equals +2 for each phrase of the fixed
high-risk list found as a case-insensitive substring of the clinical notes,
plus +5 when the prior-readmission-history flag is set, capped at 10. -/
theorem imp_C9_readmit_penalty_formula (clinical_notes : String)
    (has_history : Bool) :
    calculate_readmit_risk_penalty clinical_notes has_history =
      min 10 (2 * ((high_risk_terms.filter
          (fun term => termInNotes term (strLower clinical_notes))).length : ℚ) +
        (if has_history then 5 else 0)) := by
  simp only [calculate_readmit_risk_penalty]
  rw [foldl_two_count]
  cases has_history <;> simp

/-- C1: the claim that `calculate_revenue` rejects every `los ≤ 0` with a
validation error is contradicted by the code: with default rates and
`payer_type = "medicare_ffs"`, `los = 0` raises `ZeroDivisionError` while
computing the per-diem rate, `los = -1` returns a `RevenueBreakdown`, and
for `payer_type = "medicaid_wi"` with a per-diem rate even `los = 0`
returns a breakdown; no validation error exists on any path. -/
theorem imp_C1_no_los_validation :
    calculate_revenue "medicare_ffs" {} {} 0 none = .error .zeroDivision ∧
    revenueIsOk (calculate_revenue "medicare_ffs" {} {} (-1) none) = true ∧
    revenueIsOk (calculate_revenue "medicaid_wi"
      { per_diem_rate := some 250 } {} 0 none) = true := by
  refine ⟨?_, ?_, ?_⟩
  · simp [calculate_revenue, calculate_medicare_ffs, Except.map]
  · norm_num [calculate_revenue, calculate_medicare_ffs, revenueIsOk, Except.map]
  · simp [calculate_revenue, calculate_medicaid_wi, revenueIsOk, Except.map]

set_option maxHeartbeats 1000000 in
/-- Helper: exact total revenue of the spec's hip-replacement scenario. -/
theorem scenario_total_revenue_eq :
    scenario_total_revenue = 11155558351038311 / 1250000000000 := by
  have hrange : pyRange 1 23 =
      [1, 2, 3, 4, 5, 6, 7, 8, 9, 10, 11,
       12, 13, 14, 15, 16, 17, 18, 19, 20, 21, 22] := by rfl
  norm_num [scenario_total_revenue, scenario_medicare_result,
    calculate_medicare_ffs, vpd_accrual, hrange, VPD_SCHEDULE,
    List.foldl_cons, List.foldl_nil, scenarioPdpmGroups]

/-- Helper: no high-risk phrase occurs in the scenario's empty notes. -/
theorem scenario_no_high_risk_terms :
    (high_risk_terms.filter
      (fun term => termInNotes term (strLower ""))).length = 0 := by
  decide

/-- Helper: the readmission penalty of the scenario's empty notes is 0. -/
theorem scenario_readmit_penalty_eq :
    calculate_readmit_risk_penalty "" false = 0 := by
  simp only [calculate_readmit_risk_penalty]
  rw [foldl_two_count, scenario_no_high_risk_terms]
  norm_num [min_def]

/-- Helper: the scenario patient (nursing group HBS1, no special services)
carries no complexity penalty. -/
theorem scenario_complexity_penalty_eq :
    calculate_complexity_penalty scenarioPdpmGroups {} = 0 := by
  have h : (scenarioPdpmGroups.nursing_group = some "ES1" ∨
      scenarioPdpmGroups.nursing_group = some "ES2") = False := by
    simp [scenarioPdpmGroups]
  simp only [calculate_complexity_penalty, h]
  norm_num [min_def]

/-- Helper: the scoring engine's final score for the scenario revenue
against the spec's $132,600 projected cost is exactly 1. -/
theorem scenario_final_score_eq : scenario_final_score = 1 := by
  unfold scenario_final_score
  rw [scenario_total_revenue_eq]
  simp only [calculate_margin_score]
  rw [scenario_readmit_penalty_eq, scenario_complexity_penalty_eq]
  norm_num [calculate_base_margin, normalize_margin_score,
    calculate_census_factor, DEFAULT_BUSINESS_WEIGHTS, max_def, min_def]

/-- C2 counterexample: in the documented scenario (medicare_ffs, LOS 22,
wage index 1.0234, VBP 0.98, default component rates) the code's total
revenue is below $9,000 — more than $200,000 away from the claimed
$218,450 — and with cost $132,600 the final score is below 80 with
recommendation not "Accept". -/
theorem imp_C2_counterexample :
    scenario_total_revenue < 9000 ∧
    (218450 : ℚ) - scenario_total_revenue > 200000 ∧
    scenario_final_score < 80 ∧
    get_recommendation SCORE_THRESHOLDS scenario_final_score ≠ "Accept" := by
  refine ⟨?_, ?_, ?_, ?_⟩
  · rw [scenario_total_revenue_eq]; norm_num
  · rw [scenario_total_revenue_eq]; norm_num
  · rw [scenario_final_score_eq]; norm_num
  · rw [scenario_final_score_eq]
    norm_num [get_recommendation, SCORE_THRESHOLDS]
    decide

/-- C2 (amended): in the documented scenario the code returns total
revenue exactly 11155558351038311/1250000000000 ≈ $8,924.45, and with
projected cost $132,600 the scoring engine yields final score 1.0 with
recommendation "Decline". -/
theorem imp_C2_amended_scenario :
    scenario_total_revenue = 11155558351038311 / 1250000000000 ∧
    scenario_final_score = 1 ∧
    get_recommendation SCORE_THRESHOLDS scenario_final_score = "Decline" := by
  refine ⟨scenario_total_revenue_eq, scenario_final_score_eq, ?_⟩
  rw [scenario_final_score_eq]
  norm_num [get_recommendation, SCORE_THRESHOLDS]

/-- C4: the final margin score equals the normalized base score plus the
census adjustment weighted by `weights.census`, minus the weighted denial,
complexity and readmission penalties, clamped to [0, 100]; in particular it
always lies within [0, 100]. -/
theorem imp_C4_final_score_formula (weights : BusinessWeights)
    (projected_revenue projected_cost : ℚ) (los : ℤ)
    (pdpm_groups : PdpmGroups) (special_services : SpecialServices)
    (denial_risk : ℚ) (current_census_pct target_census_pct : ℚ)
    (clinical_notes : String) :
    (calculate_margin_score weights projected_revenue projected_cost los
      pdpm_groups special_services denial_risk current_census_pct
      target_census_pct clinical_notes).final_score =
      min 100 (max 0
        (normalize_margin_score
            (calculate_base_margin projected_revenue projected_cost los).per_diem_margin +
          weights.census * calculate_census_factor current_census_pct target_census_pct -
          weights.denial_risk * (denial_risk * 100 * 0.15) -
          weights.complexity * calculate_complexity_penalty pdpm_groups special_services -
          weights.readmit_risk * calculate_readmit_risk_penalty clinical_notes false)) ∧
    0 ≤ (calculate_margin_score weights projected_revenue projected_cost los
      pdpm_groups special_services denial_risk current_census_pct
      target_census_pct clinical_notes).final_score ∧
    (calculate_margin_score weights projected_revenue projected_cost los
      pdpm_groups special_services denial_risk current_census_pct
      target_census_pct clinical_notes).final_score ≤ 100 := by
  refine ⟨?_, ?_, ?_⟩
  · simp only [calculate_margin_score]
    congr 2
    ring
  · simp only [calculate_margin_score]
    exact le_min (by norm_num) (le_max_left _ _)
  · simp only [calculate_margin_score]
    exact min_le_left _ _

/-- C5: holding the census factor, denial penalty, complexity penalty,
readmission penalty and weights fixed, the final score — the base
normalization followed by the fixed weighted adjustments and clamping — is
monotone non-decreasing in the per-diem margin. -/
theorem imp_C5_margin_monotone (weights : BusinessWeights)
    (m1 m2 census_factor denial_penalty complexity_penalty readmit_penalty : ℚ)
    (h : m1 ≤ m2) :
    final_score_of_margin weights m1 census_factor denial_penalty
        complexity_penalty readmit_penalty ≤
      final_score_of_margin weights m2 census_factor denial_penalty
        complexity_penalty readmit_penalty := by
  unfold final_score_of_margin
  apply min_le_min le_rfl
  apply max_le_max le_rfl
  have hmono := normalize_margin_score_mono h
  linarith

/-- Witness for C5 at the concrete margins -50 ≤ 100 with default weights. -/
theorem imp_C5_witness :
    (-50 : ℚ) ≤ 100 ∧
    final_score_of_margin DEFAULT_BUSINESS_WEIGHTS (-50) 5 0 0 0 ≤
      final_score_of_margin DEFAULT_BUSINESS_WEIGHTS 100 5 0 0 0 :=
  ⟨by norm_num,
   imp_C5_margin_monotone DEFAULT_BUSINESS_WEIGHTS (-50) 100 5 0 0 0 (by norm_num)⟩

/-- C6: `calculate_medicare_ffs` applies the wage index to exactly 71.3% of
the accrued PT+OT+SLP+nursing sum, leaves the remaining 28.7% of that sum
and all of the NTA and non-case-mix revenue unadjusted, multiplies the grand
total by the VBP multiplier, and exposes both the pre-VBP and post-VBP
totals in the returned breakdown. -/
theorem imp_C6_wage_index_labor_portion (pdpm_groups : PdpmGroups)
    (rate_data : RateData) (los : ℤ) (wage_index vbp_multiplier : ℚ)
    (hv : vbp_multiplier ≠ 0) (hl : los ≠ 0) :
    ∃ b, calculate_medicare_ffs pdpm_groups rate_data los wage_index
        vbp_multiplier = .ok b ∧
      b.total_before_vbp =
        0.713 * (vpd_accrual (rate_data.pt_component.getD 64.89) los +
            vpd_accrual (rate_data.ot_component.getD 64.38) los +
            (if pdpm_groups.slp_group ≠ some "None" then
              vpd_accrual (rate_data.slp_component.getD 26.43) los else 0) +
            rate_data.nursing_component.getD 105.81 * (los : ℚ)) * wage_index +
          0.287 * (vpd_accrual (rate_data.pt_component.getD 64.89) los +
            vpd_accrual (rate_data.ot_component.getD 64.38) los +
            (if pdpm_groups.slp_group ≠ some "None" then
              vpd_accrual (rate_data.slp_component.getD 26.43) los else 0) +
            rate_data.nursing_component.getD 105.81 * (los : ℚ)) +
          rate_data.nta_component.getD 86.72 * (los : ℚ) +
          rate_data.non_case_mix.getD 98.13 * (los : ℚ) ∧
      b.total_revenue = b.total_before_vbp * vbp_multiplier := by
  simp only [calculate_medicare_ffs]
  rw [if_neg (by push_neg; exact ⟨hv, hl⟩)]
  refine ⟨_, rfl, ?_, ?_⟩
  · rw [mul_div_cancel_right₀ _ hv]
    ring
  · rw [mul_div_cancel_right₀ _ hv]

/-- Witness for C6 at the concrete scenario inputs. -/
theorem imp_C6_witness :
    (0.98 : ℚ) ≠ 0 ∧ (22 : ℤ) ≠ 0 ∧
    (∃ b, calculate_medicare_ffs scenarioPdpmGroups {} 22 1.0234 0.98 = .ok b ∧
      b.total_before_vbp =
        0.713 * (vpd_accrual (({} : RateData).pt_component.getD 64.89) 22 +
            vpd_accrual (({} : RateData).ot_component.getD 64.38) 22 +
            (if scenarioPdpmGroups.slp_group ≠ some "None" then
              vpd_accrual (({} : RateData).slp_component.getD 26.43) 22 else 0) +
            ({} : RateData).nursing_component.getD 105.81 * ((22 : ℤ) : ℚ)) * 1.0234 +
          0.287 * (vpd_accrual (({} : RateData).pt_component.getD 64.89) 22 +
            vpd_accrual (({} : RateData).ot_component.getD 64.38) 22 +
            (if scenarioPdpmGroups.slp_group ≠ some "None" then
              vpd_accrual (({} : RateData).slp_component.getD 26.43) 22 else 0) +
            ({} : RateData).nursing_component.getD 105.81 * ((22 : ℤ) : ℚ)) +
          ({} : RateData).nta_component.getD 86.72 * ((22 : ℤ) : ℚ) +
          ({} : RateData).non_case_mix.getD 98.13 * ((22 : ℤ) : ℚ) ∧
      b.total_revenue = b.total_before_vbp * 0.98) :=
  ⟨by norm_num, by norm_num,
   imp_C6_wage_index_labor_portion scenarioPdpmGroups {} 22 1.0234 0.98
     (by norm_num) (by norm_num)⟩

/-- C10: in every breakdown `calculate_medicare_ffs` returns, the six
wage-adjusted component revenue fields sum exactly (in exact rational
arithmetic) to the pre-VBP total `total_before_vbp`. -/
theorem imp_C10_components_sum_to_total (pdpm_groups : PdpmGroups)
    (rate_data : RateData) (los : ℤ) (wage_index vbp_multiplier : ℚ)
    (hv : vbp_multiplier ≠ 0) (hl : los ≠ 0) :
    ∃ b, calculate_medicare_ffs pdpm_groups rate_data los wage_index
        vbp_multiplier = .ok b ∧
      b.pt_revenue + b.ot_revenue + b.slp_revenue + b.nursing_revenue +
        b.nta_revenue + b.non_case_mix_revenue = b.total_before_vbp := by
  simp only [calculate_medicare_ffs]
  rw [if_neg (by push_neg; exact ⟨hv, hl⟩)]
  refine ⟨_, rfl, ?_⟩
  rw [mul_div_cancel_right₀ _ hv]
  ring

/-- Witness for C10 at concrete inputs (los 7, wage index 1.05, VBP 1.02). -/
theorem imp_C10_witness :
    (1.02 : ℚ) ≠ 0 ∧ (7 : ℤ) ≠ 0 ∧
    (∃ b, calculate_medicare_ffs {} {} 7 1.05 1.02 = .ok b ∧
      b.pt_revenue + b.ot_revenue + b.slp_revenue + b.nursing_revenue +
        b.nta_revenue + b.non_case_mix_revenue = b.total_before_vbp) :=
  ⟨by norm_num, by norm_num,
   imp_C10_components_sum_to_total {} {} 7 1.05 1.02 (by norm_num) (by norm_num)⟩

end AdmissionsGenie
